import Mathlib

/-!
Verification of the resumable batch record-update orchestrator
(`src/api/update_aspace_prod.py`) against its natural-language specification.

The Python source is shallowly embedded: pure helpers become Lean functions on
`String` / `List Char`; the network, the on-disk caches and the checkpoint file
become explicit oracles, effect traces and file-operation lists.  Statuses and
messages are kept as the exact strings the source uses.
-/

/- ### Python string primitives

The source relies on Python string operations (`in`, `replace`, `strip`,
`startswith`).  They are embedded as executable functions over character
lists, with Python semantics (in particular `str.replace` substitutes all
non-overlapping occurrences left to right). -/

/-- Python `s.startswith(pat)` on character lists: `charsStart s pat`. -/
def charsStart : List Char → List Char → Bool
  | _, [] => true
  | [], _ :: _ => false
  | c :: cs, p :: ps => (c == p) && charsStart cs ps

/-- Python `pat in s` (contiguous substring containment): `charsContain s pat`. -/
def charsContain : List Char → List Char → Bool
  | [], pat => pat.isEmpty
  | c :: t, pat => charsStart (c :: t) pat || charsContain t pat

/-- Fuel-indexed worker for Python `s.replace(old, new)`.  Each step consumes at
least one character of `s`, so fuel `s.length + 1` is always enough; the fuel
keeps the recursion structural so that concrete instances reduce in the kernel. -/
def replFuel : Nat → List Char → List Char → List Char → List Char
  | 0, s, _, _ => s
  | _ + 1, [], old, new => if old.isEmpty then new else []
  | fuel + 1, c :: rest, old, new =>
    if old.isEmpty then new ++ c :: replFuel fuel rest old new
    else if charsStart (c :: rest) old then
      new ++ replFuel fuel ((c :: rest).drop old.length) old new
    else c :: replFuel fuel rest old new

/-- Python `s.replace(old, new)`. -/
def pyReplace (s old new : String) : String :=
  String.mk (replFuel (s.toList.length + 1) s.toList old.toList new.toList)

/-- The characters Python `str.strip()` removes. -/
def pyIsSpace (c : Char) : Bool :=
  c == ' ' || c == '\t' || c == '\n' || c == '\r' || c == '\x0b' || c == '\x0c'

/-- Python `s.strip()`. -/
def pyStrip (s : String) : String :=
  String.mk (((s.toList.dropWhile pyIsSpace).reverse.dropWhile pyIsSpace).reverse)

/-- Python `pat in s` on strings. -/
def pyContains (s pat : String) : Bool :=
  charsContain s.toList pat.toList

/-- Python `s.startswith(pat)` on strings. -/
def pyStarts (s pat : String) : Bool :=
  charsStart s.toList pat.toList

/- ### Data model: agent records (`RemoteRecord`)

An ArchivesSpace agent record, as far as the updater touches it: the
`agent_record_identifiers` array (`none` models the key being absent from the
JSON document, mirroring `dict.get` returning `None`), the `uri` field
(`""` models absence, mirroring `.get('uri', '')`), and `rest`, an opaque
stand-in for every other field of the JSON document. -/

/-- One entry of `agent_record_identifiers`. -/
structure Identifier where
  primary_identifier : Bool
  record_identifier : String
  source : String
  jsonmodel_type : String
deriving Repr, DecidableEq

/-- An agent record fetched from ArchivesSpace. -/
structure Agent where
  agent_record_identifiers : Option (List Identifier)
  uri : String
  rest : List (String × String)
deriving Repr, DecidableEq

/-- `has_snac_ark(agent_data, snac_ark)` from the source: the record already
carries a SNAC identifier if any entry has `source == 'snac'`, or the ARK
occurs as a substring of any entry's `record_identifier`.  The leading
truthiness test `not agent_data.get('agent_record_identifiers')` is the
`none` / empty-list guard. -/
def has_snac_ark (agent_data : Agent) (snac_ark : String) : Bool :=
  match agent_data.agent_record_identifiers with
  | none => false
  | some ids =>
    if ids.isEmpty then false
    else ids.any fun identifier =>
      identifier.source == "snac" || pyContains identifier.record_identifier snac_ark

/-- The identifier entry `add_snac_ark` constructs. -/
def newSnacIdentifier (snac_ark : String) : Identifier :=
  { primary_identifier := false
    record_identifier := snac_ark
    source := "snac"
    jsonmodel_type := "agent_record_identifier" }

/-- `add_snac_ark(agent_data, snac_ark)` from the source: check-then-add.
Returns the (possibly unchanged) record with the status and message strings of
the source.  A missing `agent_record_identifiers` key is first initialised to
the empty list. -/
def add_snac_ark (agent_data : Agent) (snac_ark : String) :
    Agent × String × String :=
  if has_snac_ark agent_data snac_ark then
    (agent_data, "skipped", "SNAC ARK already exists")
  else
    let ids := agent_data.agent_record_identifiers.getD []
    ({ agent_data with
        agent_record_identifiers := some (ids ++ [newSnacIdentifier snac_ark]) },
      "added", "SNAC ARK added")

/- ### Input rows and outcomes

One row of the source CSV (`process_agent` reads four columns; `none` models a
NaN cell) and the result dictionary `process_agent` returns.  Optional fields
of `Outcome` model dictionary keys that are present only on some paths. -/

/-- One input row handed to `process_agent`. -/
structure Row where
  original_agent_uri_old_spreadsheet : Option String
  aspace_agent_uri_final : Option String
  agent_name : String
  snac_ark_final : Option String
deriving Repr, DecidableEq

/-- Python truthiness test `pd.isna(x) or not x` on an optional string cell. -/
def cellMissing : Option String → Bool
  | none => true
  | some s => s.toList.isEmpty

/-- The result dictionary returned by `process_agent`. -/
structure Outcome where
  agent_uri : Option String
  agent_name : String
  snac_ark : Option String := none
  status : String
  ark_status : Option String := none
  message : String
  compare_status : Option String := none
  compare_message : Option String := none
deriving Repr, DecidableEq

/-- Observable side effects of processing one record: a GET of the agent
record, a cache file write, or a POST updating the record. -/
inductive Effect where
  | fetch (uri : String)
  | cacheWrite (path : String)
  | updatePost (uri : String)
deriving Repr, DecidableEq

/-- URI resolution and cleaning from the head of `process_agent`: prefer
`original_agent_uri_old_spreadsheet`, fall back to `aspace_agent_uri_final`;
then `strip()`, remove an embedded `api_url`, and force a leading slash.
`none` is the `'No valid agent URI found'` error path. -/
def resolveUri (api_url : String) (row : Row) : Option String :=
  let uri0 :=
    if cellMissing row.original_agent_uri_old_spreadsheet then
      row.aspace_agent_uri_final
    else row.original_agent_uri_old_spreadsheet
  if cellMissing uri0 then none
  else
    let u1 := pyStrip (uri0.getD "")
    let u2 := if pyContains u1 api_url then pyReplace u1 api_url "" else u1
    some (if pyStarts u2 "/" then u2 else "/" ++ u2)

/-- `save_to_cache` filename: the agent URI with slashes replaced by
underscores, plus `.json`. -/
def cacheFileName (agent_uri : String) : String :=
  pyReplace agent_uri "/" "_" ++ ".json"

/-- `process_agent(params)` from the source, as a pure function.

The network boundary is abstracted into oracles: `fetchO` is the result of the
retry-wrapped `get_agent_record` (an exception message or the parsed agent),
`updateO` is the result triple of `update_agent_record` (which catches all of
its own exceptions and returns `(data, status, message)`), and `compareO` is
the result pair of `compare_with_test_cache` (which likewise never raises).
Every fallible step of the Python body is caught locally (the fetch by the
inner `try`, submit and comparison inside their own functions), so the outer
`except Exception` handler of `process_agent` is unreachable in this model and
the function is total: one `Outcome` per row, always.  The second component is
the trace of network/cache effects the call performs. -/
def processAgent
    (fetchO : String → Except String Agent)
    (updateO : String → Agent → Option Agent × String × String)
    (compareO : String → String × String)
    (api_url : String) (no_update : Bool) (row : Row) : Outcome × List Effect :=
  match resolveUri api_url row with
  | none =>
    ({ agent_uri := none, agent_name := row.agent_name, status := "error",
       message := "No valid agent URI found" }, [])
  | some agent_uri =>
    if cellMissing row.snac_ark_final then
      ({ agent_uri := some agent_uri, agent_name := row.agent_name,
         status := "error", message := "No SNAC ARK found" }, [])
    else
      let snac_ark := row.snac_ark_final.getD ""
      match fetchO agent_uri with
      | .error e =>
        ({ agent_uri := some agent_uri, agent_name := row.agent_name,
           status := "error", message := "Failed to retrieve agent: " ++ e },
          [Effect.fetch agent_uri])
      | .ok agent_data =>
        let original_data := agent_data
        let step := add_snac_ark agent_data snac_ark
        let ark_status := step.2.1
        let effs := [Effect.fetch agent_uri,
                     Effect.cacheWrite (cacheFileName agent_uri)]
        let cmp := compareO agent_uri
        if ark_status == "skipped" || no_update then
          ({ agent_uri := some agent_uri, agent_name := row.agent_name,
             snac_ark := some snac_ark,
             status := if ark_status == "skipped" then "success" else "no_update",
             ark_status := some ark_status, message := step.2.2,
             compare_status := some cmp.1, compare_message := some cmp.2 }, effs)
        else
          let agent_uri2 :=
            if original_data.uri.toList.isEmpty then agent_uri else original_data.uri
          let upd := updateO agent_uri2 step.1
          if upd.2.1 == "success" then
            ({ agent_uri := some agent_uri2, agent_name := row.agent_name,
               snac_ark := some snac_ark, status := "success",
               ark_status := some "added",
               message := "SNAC ARK added and record updated",
               compare_status := some cmp.1, compare_message := some cmp.2 },
              effs ++ [Effect.updatePost agent_uri2,
                       Effect.cacheWrite (cacheFileName (agent_uri2 ++ "_updated"))])
          else
            ({ agent_uri := some agent_uri2, agent_name := row.agent_name,
               snac_ark := some snac_ark, status := "error",
               ark_status := some "failed",
               message := "Failed to update record: " ++ upd.2.2,
               compare_status := some cmp.1, compare_message := some cmp.2 },
              effs ++ [Effect.updatePost agent_uri2])

/-- `process_batch` submits one `process_agent` call per row to a bounded
thread pool and collects every result (the worker count only affects
completion order, which the batch model in this file quantifies over
separately).  Each row yields exactly one result dictionary: even an exception
escaping a worker is converted by the `future.result()` handler into an
`error` result. -/
def processBatch
    (fetchO : String → Except String Agent)
    (updateO : String → Agent → Option Agent × String × String)
    (compareO : String → String × String)
    (api_url : String) (no_update : Bool) (rows : List Row) :
    List (Outcome × List Effect) :=
  rows.map (processAgent fetchO updateO compareO api_url no_update)

/- ### Checkpoints and the run loop

`update_aspace_prod` derives a starting offset from the checkpoint when
`--auto-resume` is given, slices the input frame at that offset, and maps the
record processor over the slice (`process_batch` over consecutive
`batch_size` slices; the flattened outcome list is the map over the whole
slice).  The checkpoint's `processed_uris` are loaded into the in-memory
`results['processed_uris']` set. -/

/-- The checkpoint JSON object, as `load_checkpoint` returns it. -/
structure Checkpoint where
  last_processed_index : Nat
  processed_uris : Option (List String)
deriving Repr, DecidableEq

/-- Starting offset of a run: `checkpoint.get('last_processed_index', 0) + 1`
when auto-resume found a checkpoint, else 0 (the function-level default;
an explicit `--start-index` is applied by the caller before this point). -/
def startIndexOf (auto_resume : Bool) (cp : Option Checkpoint) : Nat :=
  if auto_resume then
    match cp with
    | some c => c.last_processed_index + 1
    | none => 0
  else 0

/-- The `processed_uris` seeded into `results['processed_uris']` at start:
the checkpoint's list when auto-resume found one carrying the key, else empty. -/
def seededUris (auto_resume : Bool) (cp : Option Checkpoint) : List String :=
  if auto_resume then
    match cp with
    | some c => c.processed_uris.getD []
    | none => []
  else []

/-- The slice of the input frame actually processed: `df.iloc[start_index:]`
when `0 < start_index < len(df)`, the whole frame when `start_index = 0`, and
nothing (early return) when the start index is out of bounds. -/
def sliceFrom (df : List Row) (start_index : Nat) : List Row :=
  if 0 < start_index then
    if start_index < df.length then df.drop start_index else []
  else df

/-- Outcome-with-effects list of one run over `df` from `start_index`: the
record processor applied to every row of the processed slice, in input order
(batching partitions this list; no step of the loop consults
`results['processed_uris']` before processing a row). -/
def runOutcomes
    (fetchO : String → Except String Agent)
    (updateO : String → Agent → Option Agent × String × String)
    (compareO : String → String × String)
    (api_url : String) (no_update : Bool)
    (df : List Row) (start_index : Nat) : List (Outcome × List Effect) :=
  (sliceFrom df start_index).map (processAgent fetchO updateO compareO api_url no_update)

/- ### Environment selection (`determine_api_url`) -/

/-- The `credentials.archivesspace_api` section of `config.json`, as far as
`determine_api_url` reads it: the test URL is always present, the production
URL only optionally (`none` models the key being absent). -/
structure AspaceConfig where
  api_url : String
  prod_api_url : Option String
deriving Repr, DecidableEq

/-- `determine_api_url(config, environment)` from the source: for
`"production"`, use the explicit `prod_api_url` if configured; otherwise, if
the substring `"test"` occurs in the test URL, derive by deleting it;
otherwise fall back to the test URL (logging a warning).  Any other
environment gets the configured test URL.  The function is total and never
raises. -/
def determine_api_url (config : AspaceConfig) (environment : String) : String :=
  if environment == "production" then
    match config.prod_api_url with
    | some u => u
    | none =>
      if pyContains config.api_url "test" then pyReplace config.api_url "test" ""
      else config.api_url
  else config.api_url

/- ### Retry policy (`retry_with_backoff`)

The decorator is embedded as an explicit loop over attempt numbers.  One
invocation of the wrapped unit of work either returns a value or raises an
exception; `qualifies` is membership in the decorator's `allowed_exceptions`
tuple (an exception outside it is not caught and propagates at once).  The
embedding returns how many times the unit of work was invoked, the list of
back-off waits performed (in time units, one entry per `time.sleep`), and the
final outcome.  `fellThrough` is the dead `return None` after the loop, which
is reachable only when `max_retries = 0`. -/

/-- Result of one invocation of the wrapped unit of work. -/
inductive RunResult (E A : Type) where
  | ok (a : A)
  | err (e : E)
deriving Repr, DecidableEq

/-- Final result of the retry wrapper. -/
inductive RetryOutcome (E A : Type) where
  | value (a : A)
  | raised (e : E)
  | fellThrough
deriving Repr, DecidableEq

/-- The loop body of `retry_with_backoff`: `remaining` counts the iterations
left in `for attempt in range(max_retries)`, `attempt` is the current attempt
number.  On a caught exception the code re-raises when
`attempt >= max_retries - 1`, otherwise sleeps `2 ** attempt` and retries. -/
def retryAux {E A : Type} (qualifies : E → Bool) (f : Nat → RunResult E A)
    (max_retries : Nat) : Nat → Nat → Nat × List Nat × RetryOutcome E A
  | 0, _ => (0, [], RetryOutcome.fellThrough)
  | remaining + 1, attempt =>
    match f attempt with
    | RunResult.ok a => (1, [], RetryOutcome.value a)
    | RunResult.err e =>
      if qualifies e then
        if max_retries - 1 ≤ attempt then (1, [], RetryOutcome.raised e)
        else
          let r := retryAux qualifies f max_retries remaining (attempt + 1)
          (r.1 + 1, 2 ^ attempt :: r.2.1, r.2.2)
      else (1, [], RetryOutcome.raised e)

/-- `retry_with_backoff(max_retries, allowed_exceptions)` applied to a unit of
work `f` whose behaviour may differ per attempt.  Returns
`(invocation count, waits, outcome)`. -/
def retry_with_backoff {E A : Type} (qualifies : E → Bool) (max_retries : Nat)
    (f : Nat → RunResult E A) : Nat × List Nat × RetryOutcome E A :=
  retryAux qualifies f max_retries max_retries 0

/- ### Fetching one agent record (`get_agent_record`) -/

/-- The slice of an HTTP response `get_agent_record` inspects: the status code
and (for status 200) the parsed JSON body. -/
structure HttpResponse where
  status_code : Nat
  body : Agent
deriving Repr, DecidableEq

/-- One un-retried call of `get_agent_record` on a given response: 200 returns
the parsed record, 404 raises `HTTPError('404 Not Found: ...')`, any other
4xx/5xx status raises through `response.raise_for_status()`, and a remaining
(non-error) status falls off the end of the function and returns `None`. -/
def get_agent_record (response : HttpResponse) (agent_uri : String) :
    RunResult String (Option Agent) :=
  if response.status_code == 200 then RunResult.ok (some response.body)
  else if response.status_code == 404 then
    RunResult.err ("404 Not Found: " ++ agent_uri)
  else if 400 ≤ response.status_code && response.status_code < 600 then
    RunResult.err ("HTTP " ++ toString response.status_code)
  else RunResult.ok none

/-- The decorator on `get_agent_record` lists
`(requests.exceptions.RequestException, json.JSONDecodeError, Exception)` as
`allowed_exceptions`; `Exception` is the base class of every exception raised
here, so every failure qualifies for retry. -/
def fetchQualifies : String → Bool := fun _ => true

/-- `get_agent_record` as actually deployed: wrapped in
`retry_with_backoff(max_retries=3, ...)`.  `server` gives the HTTP response
observed by each attempt. -/
def fetchAgentRetried (server : Nat → HttpResponse) (agent_uri : String) :
    Nat × List Nat × RetryOutcome String (Option Agent) :=
  retry_with_backoff fetchQualifies 3
    (fun attempt => get_agent_record (server attempt) agent_uri)

/- ### Checkpoint persistence (`save_checkpoint`) as file operations

`save_checkpoint` is embedded as the list of file-system operations it
performs.  A file system is a map from path to content; `open(path, "w")`
truncates the file and writes the new content, so a crash part-way through a
write leaves the file holding a prefix of the new content.  A `rename`
operation (which the source never performs) is modelled as atomic. -/

/-- One file-system operation. -/
inductive FileOp where
  | write (path content : String)
  | rename (src dst : String)
deriving Repr, DecidableEq

/-- A file system: path to content, `none` when the file does not exist. -/
def FileSys : Type := String → Option String

/-- Effect of one completed operation. -/
def applyOp (fs : FileSys) (op : FileOp) : FileSys :=
  match op with
  | FileOp.write p c => fun q => if q = p then some c else fs q
  | FileOp.rename src dst =>
    fun q => if q = dst then fs src else if q = src then none else fs q

/-- Effect of a list of completed operations. -/
def applyOps (fs : FileSys) (ops : List FileOp) : FileSys :=
  ops.foldl applyOp fs

/-- State after a crash during operation `k` (0-based) of `ops`: the first `k`
operations completed; if operation `k` is a write, only the first `j`
characters of its content reached the (already truncated) file; a rename
either fully happens or not, so a crash during it leaves the prior state. -/
def crashState (fs : FileSys) (ops : List FileOp) (k j : Nat) : FileSys :=
  let fs1 := applyOps fs (ops.take k)
  match ops.drop k with
  | [] => fs1
  | op :: _ =>
    match op with
    | FileOp.write p c =>
      fun q => if q = p then some (String.mk (c.toList.take j)) else fs1 q
    | FileOp.rename _ _ => fs1

/-- Path of the JSON checkpoint for an environment. -/
def checkpointPath (environment : String) : String :=
  "logs/checkpoints/checkpoint_" ++ environment ++ ".json"

/-- Path of the human-readable twin. -/
def checkpointTxtPath (environment : String) : String :=
  "logs/checkpoints/checkpoint_" ++ environment ++ ".txt"

/-- Rendering of a JSON string list. -/
def renderStrList (l : List String) : String :=
  "[" ++ String.intercalate ", " (l.map fun s => "\"" ++ s ++ "\"") ++ "]"

/-- Serialized checkpoint dictionary `json.dump` writes: always
`last_processed_index`, `timestamp` and `processed_records`
(`last_processed_index + 1`); `processed_uris` only when the argument is
truthy (a non-empty list). -/
def checkpointJson (last_processed_index : Nat) (ts : String)
    (processed_uris : Option (List String)) : String :=
  "\x7b \"last_processed_index\": " ++ toString last_processed_index ++
    ", \"timestamp\": \"" ++ ts ++
    "\", \"processed_records\": " ++ toString (last_processed_index + 1) ++
    (match processed_uris with
     | some (u :: us) => ", \"processed_uris\": " ++ renderStrList (u :: us)
     | _ => "") ++ " \x7d"

/-- Content of the human-readable twin. -/
def checkpointTxt (last_processed_index : Nat) (ts : String) : String :=
  "Last processed index: " ++ toString last_processed_index ++ "\n" ++
    "Processed records: " ++ toString (last_processed_index + 1) ++ "\n" ++
    "Timestamp: " ++ ts ++ "\n"

/-- The file operations `save_checkpoint(environment, last_processed_index,
processed_uris)` performs, in order: a direct write of the JSON checkpoint to
its final path, then a direct write of the human-readable twin.  No temporary
file and no rename are involved. -/
def saveCheckpointOps (environment : String) (last_processed_index : Nat)
    (ts : String) (processed_uris : Option (List String)) : List FileOp :=
  [FileOp.write (checkpointPath environment)
      (checkpointJson last_processed_index ts processed_uris),
   FileOp.write (checkpointTxtPath environment)
      (checkpointTxt last_processed_index ts)]

/- ### Batch scheduling as an event trace

`update_aspace_prod` walks `range(0, total_records, batch_size)` and calls
`process_batch` once per slice; `process_batch` submits every row of the
slice to a fresh `ThreadPoolExecutor` and, still inside the `with` block,
drains `as_completed(futures)` — so it returns only after every worker of the
batch has finished, and the next batch is dispatched only after that return.
The trace model makes the batch-internal order fully nondeterministic (any
permutation of the batch's start/finish events, supplied by `sched`) and
concatenates the per-batch traces, which is exactly the join performed by the
executor's scope. -/

/-- Processing events of the record at a given input offset. -/
inductive BEvent where
  | start (offset : Nat)
  | finish (offset : Nat)
deriving Repr, DecidableEq

/-- The input offset an event belongs to. -/
def offsetOf : BEvent → Nat
  | BEvent.start o => o
  | BEvent.finish o => o

/-- Both events of one record. -/
def recordEvents (o : Nat) : List BEvent :=
  [BEvent.start o, BEvent.finish o]

/-- Number of iterations of `range(0, N, B)`: `⌈N / B⌉`. -/
def numBatches (N B : Nat) : Nat := (N + B - 1) / B

/-- Offsets of batch `b`: the slice `df.iloc[b*B : b*B+B]` of an input of
length `N`, identified by offset. -/
def batchRows (N B b : Nat) : List Nat :=
  ((List.range N).drop (b * B)).take B

/-- The absolute index `save_checkpoint` receives after batch `b` (for a run
starting at offset 0): `start_idx + batch_size_actual - 1`, the offset of the
batch's last record. -/
def checkpointIndex (N B b : Nat) : Nat :=
  b * B + (batchRows N B b).length - 1

/-- The full event trace of a run: per-batch traces (an arbitrary
interleaving of that batch's events, chosen by `sched`) concatenated in batch
order. -/
def runTrace (N B : Nat) (sched : List Nat → List BEvent) : List BEvent :=
  ((List.range (numBatches N B)).map fun b => sched (batchRows N B b)).flatten

/- ### Concrete fixtures used by witnesses and counterexamples -/

/-- An agent record with an empty identifier list. -/
def agentEmptyIds : Agent :=
  { agent_record_identifiers := some [], uri := "/agents/people/7", rest := [("title", "x")] }

/-- An agent record that already carries a SNAC identifier (with some value). -/
def agentWithSnac : Agent :=
  { agent_record_identifiers :=
      some [{ primary_identifier := true, record_identifier := "ark:/99166/w6xx",
              source := "snac", jsonmodel_type := "agent_record_identifier" }],
    uri := "", rest := [] }

/-- A complete input row. -/
def rowFull : Row :=
  { original_agent_uri_old_spreadsheet := some "/agents/people/7",
    aspace_agent_uri_final := none,
    agent_name := "Doe, Jane",
    snac_ark_final := some "ark:/99166/w6aa" }

/-- A row whose URI cells are both missing. -/
def rowNoUri : Row :=
  { original_agent_uri_old_spreadsheet := none, aspace_agent_uri_final := none,
    agent_name := "Doe, Jane", snac_ark_final := some "ark:/99166/w6aa" }

/-- A row with a URI but no SNAC ARK. -/
def rowNoArk : Row :=
  { original_agent_uri_old_spreadsheet := some "/agents/people/7",
    aspace_agent_uri_final := none, agent_name := "Doe, Jane",
    snac_ark_final := none }

/-- A second complete row with a different URI. -/
def rowOther : Row :=
  { original_agent_uri_old_spreadsheet := some "/agents/people/1",
    aspace_agent_uri_final := none, agent_name := "Roe, R.",
    snac_ark_final := some "ark:/99166/w6bb" }

/-- Fetch oracle: every URI resolves to `agentEmptyIds`. -/
def fetchOk : String → Except String Agent := fun _ => Except.ok agentEmptyIds

/-- Fetch oracle: every URI resolves to `agentWithSnac`. -/
def fetchOkSnac : String → Except String Agent := fun _ => Except.ok agentWithSnac

/-- Fetch oracle: the retried fetch failed. -/
def fetchFail : String → Except String Agent :=
  fun u => Except.error ("404 Not Found: " ++ u)

/-- Update oracle: the POST succeeds and echoes the record. -/
def updateOk : String → Agent → Option Agent × String × String :=
  fun _ a => (some a, "success", "Update successful")

/-- Update oracle: the POST fails. -/
def updateFail : String → Agent → Option Agent × String × String :=
  fun _ _ => (none, "error", "HTTP 500: internal error")

/-- Comparison oracle: no test cache available. -/
def compareNone : String → String × String :=
  fun _ => ("no_test_data", "Test cache not available for comparison")

/-- A checkpoint whose processed set contains the URI of `rowFull`. -/
def cpSeen : Checkpoint :=
  { last_processed_index := 0, processed_uris := some ["/agents/people/7"] }

/-- A two-row input frame: `rowFull`, already processed per `cpSeen`, sits at
offset 1, past the resumption point. -/
def dfTwo : List Row := [rowOther, rowFull]

/-- The in-order batch schedule (one admissible completion order). -/
def schedSeq : List Nat → List BEvent := fun batch => (batch.map recordEvents).flatten

/-- Whether a file operation is a rename. -/
def isRename : FileOp → Bool
  | FileOp.rename _ _ => true
  | FileOp.write _ _ => false

/-- A file system holding one previously valid production checkpoint. -/
def fsProd : FileSys := fun q =>
  if q = checkpointPath "production" then some (checkpointJson 9 "t0" none) else none

/- ### Helper lemmas about the mutation -/

lemma add_snac_ark_of_has {r : Agent} {a : String} (h : has_snac_ark r a = true) :
    add_snac_ark r a = (r, "skipped", "SNAC ARK already exists") := by
  simp [add_snac_ark, h]

lemma add_snac_ark_of_not_has {r : Agent} {a : String}
    (h : has_snac_ark r a = false) :
    add_snac_ark r a =
      (Agent.mk (some (r.agent_record_identifiers.getD [] ++ [newSnacIdentifier a]))
        r.uri r.rest, "added", "SNAC ARK added") := by
  simp [add_snac_ark, h]

lemma has_snac_ark_some_append {r : Agent} {l : List Identifier} {a : String}
    (h : r.agent_record_identifiers = some (l ++ [newSnacIdentifier a])) :
    has_snac_ark r a = true := by
  simp only [has_snac_ark, h]
  simp [List.any_eq_true]
  exact Or.inr (Or.inl rfl)

lemma has_snac_ark_of_mem_source {r : Agent} {i : Identifier} {a : String}
    (hm : i ∈ r.agent_record_identifiers.getD []) (hs : i.source = "snac") :
    has_snac_ark r a = true := by
  cases hri : r.agent_record_identifiers with
  | none => rw [hri] at hm; simp at hm
  | some ids =>
    rw [hri] at hm; simp at hm
    cases ids with
    | nil => simp at hm
    | cons x xs =>
      simp only [has_snac_ark, hri, List.isEmpty_cons, if_false,
        Bool.false_eq_true, List.any_eq_true]
      exact ⟨i, hm, by simp [hs]⟩

lemma has_snac_ark_of_mem_contains {r : Agent} {i : Identifier} {a : String}
    (hm : i ∈ r.agent_record_identifiers.getD [])
    (hc : pyContains i.record_identifier a = true) :
    has_snac_ark r a = true := by
  cases hri : r.agent_record_identifiers with
  | none => rw [hri] at hm; simp at hm
  | some ids =>
    rw [hri] at hm; simp at hm
    cases ids with
    | nil => simp at hm
    | cons x xs =>
      simp only [has_snac_ark, hri, List.isEmpty_cons, if_false,
        Bool.false_eq_true, List.any_eq_true]
      exact ⟨i, hm, by simp [hc]⟩

lemma newSnac_not_mem_of_not_has {r : Agent} {a : String}
    (h : has_snac_ark r a = false) :
    newSnacIdentifier a ∉ r.agent_record_identifiers.getD [] := by
  intro hm
  have htrue := has_snac_ark_of_mem_source (a := a) hm rfl
  rw [htrue] at h
  exact Bool.noConfusion h

/- ### Branch equations for `process_agent` -/

lemma data_ne_nil_of_isEmpty_false {a : String}
    (h : a.toList.isEmpty = false) : ¬ a.data = [] := by
  intro hnil
  rw [String.toList, hnil] at h
  simp at h

lemma processAgent_noUri_eq
    {fetchO : String → Except String Agent}
    {updateO : String → Agent → Option Agent × String × String}
    {compareO : String → String × String} {api_url : String} {no_update : Bool}
    {row : Row} (h1 : resolveUri api_url row = none) :
    processAgent fetchO updateO compareO api_url no_update row =
      ({ agent_uri := none, agent_name := row.agent_name, status := "error",
         message := "No valid agent URI found" }, []) := by
  simp only [processAgent, h1]

lemma processAgent_noArk_eq
    {fetchO : String → Except String Agent}
    {updateO : String → Agent → Option Agent × String × String}
    {compareO : String → String × String} {api_url : String} {no_update : Bool}
    {row : Row} {u : String} (h1 : resolveUri api_url row = some u)
    (h3 : cellMissing row.snac_ark_final = true) :
    processAgent fetchO updateO compareO api_url no_update row =
      ({ agent_uri := some u, agent_name := row.agent_name, status := "error",
         message := "No SNAC ARK found" }, []) := by
  simp only [processAgent, h1, h3]
  simp

lemma processAgent_fetchErr_eq
    {fetchO : String → Except String Agent}
    {updateO : String → Agent → Option Agent × String × String}
    {compareO : String → String × String} {api_url : String} {no_update : Bool}
    {row : Row} {u a e : String} (h1 : resolveUri api_url row = some u)
    (h2 : row.snac_ark_final = some a) (h3 : a.toList.isEmpty = false)
    (h4 : fetchO u = Except.error e) :
    processAgent fetchO updateO compareO api_url no_update row =
      ({ agent_uri := some u, agent_name := row.agent_name, status := "error",
         message := "Failed to retrieve agent: " ++ e }, [Effect.fetch u]) := by
  have h3d := data_ne_nil_of_isEmpty_false h3
  simp only [processAgent, h1, h2, h4]
  simp [cellMissing, h3d]

lemma processAgent_skip_eq
    {fetchO : String → Except String Agent}
    {updateO : String → Agent → Option Agent × String × String}
    {compareO : String → String × String} {api_url : String} {no_update : Bool}
    {row : Row} {u a : String} {ag : Agent}
    (h1 : resolveUri api_url row = some u)
    (h2 : row.snac_ark_final = some a) (h3 : a.toList.isEmpty = false)
    (h4 : fetchO u = Except.ok ag) (h5 : has_snac_ark ag a = true) :
    processAgent fetchO updateO compareO api_url no_update row =
      ({ agent_uri := some u, agent_name := row.agent_name, snac_ark := some a,
         status := "success", ark_status := some "skipped",
         message := "SNAC ARK already exists",
         compare_status := some (compareO u).1,
         compare_message := some (compareO u).2 },
        [Effect.fetch u, Effect.cacheWrite (cacheFileName u)]) := by
  have h3d := data_ne_nil_of_isEmpty_false h3
  simp only [processAgent, h1, h2, h4]
  simp [cellMissing, h3d, add_snac_ark_of_has h5]

lemma processAgent_dryRun_eq
    {fetchO : String → Except String Agent}
    {updateO : String → Agent → Option Agent × String × String}
    {compareO : String → String × String} {api_url : String}
    {row : Row} {u a : String} {ag : Agent}
    (h1 : resolveUri api_url row = some u)
    (h2 : row.snac_ark_final = some a) (h3 : a.toList.isEmpty = false)
    (h4 : fetchO u = Except.ok ag) (h5 : has_snac_ark ag a = false) :
    processAgent fetchO updateO compareO api_url true row =
      ({ agent_uri := some u, agent_name := row.agent_name, snac_ark := some a,
         status := "no_update", ark_status := some "added",
         message := "SNAC ARK added",
         compare_status := some (compareO u).1,
         compare_message := some (compareO u).2 },
        [Effect.fetch u, Effect.cacheWrite (cacheFileName u)]) := by
  have h3d := data_ne_nil_of_isEmpty_false h3
  simp only [processAgent, h1, h2, h4]
  simp [cellMissing, h3d, add_snac_ark_of_not_has h5]

lemma processAgent_update_eq
    {fetchO : String → Except String Agent}
    {updateO : String → Agent → Option Agent × String × String}
    {compareO : String → String × String} {api_url : String}
    {row : Row} {u a : String} {ag : Agent}
    (h1 : resolveUri api_url row = some u)
    (h2 : row.snac_ark_final = some a) (h3 : a.toList.isEmpty = false)
    (h4 : fetchO u = Except.ok ag) (h5 : has_snac_ark ag a = false) :
    processAgent fetchO updateO compareO api_url false row =
      (let agent_uri2 := if ag.uri.toList.isEmpty then u else ag.uri
       let upd := updateO agent_uri2 (add_snac_ark ag a).1
       if upd.2.1 == "success" then
         ({ agent_uri := some agent_uri2, agent_name := row.agent_name,
            snac_ark := some a, status := "success", ark_status := some "added",
            message := "SNAC ARK added and record updated",
            compare_status := some (compareO u).1,
            compare_message := some (compareO u).2 },
           [Effect.fetch u, Effect.cacheWrite (cacheFileName u),
            Effect.updatePost agent_uri2,
            Effect.cacheWrite (cacheFileName (agent_uri2 ++ "_updated"))])
       else
         ({ agent_uri := some agent_uri2, agent_name := row.agent_name,
            snac_ark := some a, status := "error", ark_status := some "failed",
            message := "Failed to update record: " ++ upd.2.2,
            compare_status := some (compareO u).1,
            compare_message := some (compareO u).2 },
           [Effect.fetch u, Effect.cacheWrite (cacheFileName u),
            Effect.updatePost agent_uri2])) := by
  have h3d := data_ne_nil_of_isEmpty_false h3
  have hadd : (add_snac_ark ag a).2.1 = "added" := by
    rw [add_snac_ark_of_not_has h5]
  simp only [processAgent, h1, h2, h4]
  simp [cellMissing, h3d, hadd]

/- ### Claims about the mutation (C6, C10) -/

/-- Claim C6: the field-level mutation is idempotent: for every remote record
`r` and target ARK `a`, applying `add_snac_ark` twice yields the state of
applying it once; no duplicate entry of the target identifier is ever created;
and when the record already carries the target value the processor reports the
`skipped` (already-present) action with a `success` status and performs no
update POST. -/
theorem claim_C6_mutation_idempotent
    (r ag : Agent) (a u : String)
    (fetchO : String → Except String Agent)
    (updateO : String → Agent → Option Agent × String × String)
    (compareO : String → String × String)
    (api_url : String) (no_update : Bool) (row : Row) :
    (add_snac_ark (add_snac_ark r a).1 a).1 = (add_snac_ark r a).1 ∧
    (has_snac_ark r a = false →
      newSnacIdentifier a ∉ r.agent_record_identifiers.getD [] ∧
      ((add_snac_ark r a).1.agent_record_identifiers.getD []).count
          (newSnacIdentifier a) = 1) ∧
    (has_snac_ark r a = true →
      add_snac_ark r a = (r, "skipped", "SNAC ARK already exists")) ∧
    (resolveUri api_url row = some u → row.snac_ark_final = some a →
      a.toList.isEmpty = false → fetchO u = Except.ok ag →
      has_snac_ark ag a = true →
      (processAgent fetchO updateO compareO api_url no_update row).1.status
          = "success" ∧
      (processAgent fetchO updateO compareO api_url no_update row).1.ark_status
          = some "skipped" ∧
      ∀ v, Effect.updatePost v ∉
          (processAgent fetchO updateO compareO api_url no_update row).2) := by
  refine ⟨?_, ?_, fun h => add_snac_ark_of_has h, ?_⟩
  · by_cases h : has_snac_ark r a
    · simp [add_snac_ark_of_has h]
    · have hf : has_snac_ark r a = false := by simpa using h
      have hin := add_snac_ark_of_not_has hf
      rw [hin]
      have h2 : has_snac_ark
          (Agent.mk (some (r.agent_record_identifiers.getD [] ++
            [newSnacIdentifier a])) r.uri r.rest) a = true :=
        has_snac_ark_some_append rfl
      simp [add_snac_ark_of_has h2]
  · intro h
    refine ⟨newSnac_not_mem_of_not_has h, ?_⟩
    rw [add_snac_ark_of_not_has h]
    simp [List.count_append, List.count_eq_zero.mpr (newSnac_not_mem_of_not_has h)]
  · intro h1 h2 h3 h4 h5
    rw [processAgent_skip_eq h1 h2 h3 h4 h5]
    refine ⟨rfl, rfl, ?_⟩
    intro v hv
    simp at hv

/-- Witness for C6 at concrete inputs: mutating an identifier-free record
twice equals mutating it once, and a record that already has a SNAC
identifier yields the `skipped` action. -/
theorem claim_C6_mutation_idempotent_witness :
    (add_snac_ark (add_snac_ark agentEmptyIds "ark:/99166/w6aa").1
        "ark:/99166/w6aa").1 = (add_snac_ark agentEmptyIds "ark:/99166/w6aa").1 ∧
    (processAgent fetchOkSnac updateOk compareNone "https://api" false
        rowFull).1.ark_status = some "skipped" := by
  refine ⟨(claim_C6_mutation_idempotent agentEmptyIds agentWithSnac
    "ark:/99166/w6aa" "/agents/people/7" fetchOkSnac updateOk compareNone
    "https://api" false rowFull).1, ?_⟩
  exact ((claim_C6_mutation_idempotent agentEmptyIds agentWithSnac
    "ark:/99166/w6aa" "/agents/people/7" fetchOkSnac updateOk compareNone
    "https://api" false rowFull).2.2.2 (by decide) rfl (by decide) rfl
    (by decide)).2.1

/-- Claim C10: frame property of the patch: when the record does not already
carry the ARK, exactly one identifier entry
(`source = "snac"`, `record_identifier = a`, `primary_identifier = false`) is
appended and every pre-existing entry and every other field is unchanged;
when it does (any `snac`-source entry, even with a different value, or the
ARK as a substring of any entry), the record is returned entirely unchanged
with status `skipped`. -/
theorem claim_C10_add_frame (r : Agent) (a : String) :
    (has_snac_ark r a = false →
      (add_snac_ark r a).1.agent_record_identifiers =
        some (r.agent_record_identifiers.getD [] ++ [newSnacIdentifier a]) ∧
      (newSnacIdentifier a).source = "snac" ∧
      (newSnacIdentifier a).record_identifier = a ∧
      (newSnacIdentifier a).primary_identifier = false ∧
      (add_snac_ark r a).1.uri = r.uri ∧
      (add_snac_ark r a).1.rest = r.rest ∧
      (add_snac_ark r a).2.1 = "added") ∧
    (has_snac_ark r a = true →
      add_snac_ark r a = (r, "skipped", "SNAC ARK already exists")) ∧
    (∀ i ∈ r.agent_record_identifiers.getD [], i.source = "snac" →
      add_snac_ark r a = (r, "skipped", "SNAC ARK already exists")) ∧
    (∀ i ∈ r.agent_record_identifiers.getD [],
      pyContains i.record_identifier a = true →
      add_snac_ark r a = (r, "skipped", "SNAC ARK already exists")) := by
  refine ⟨?_, fun h => add_snac_ark_of_has h, ?_, ?_⟩
  · intro h
    rw [add_snac_ark_of_not_has h]
    exact ⟨rfl, rfl, rfl, rfl, rfl, rfl, rfl⟩
  · intro i hm hs
    exact add_snac_ark_of_has (has_snac_ark_of_mem_source hm hs)
  · intro i hm hc
    exact add_snac_ark_of_has (has_snac_ark_of_mem_contains hm hc)

/-- Witness for C10 at concrete inputs: the patch appends exactly the new
SNAC entry to an identifier-free record, and a record with an existing
`snac`-source entry of a different value is returned unchanged. -/
theorem claim_C10_add_frame_witness :
    (add_snac_ark agentEmptyIds "ark:/99166/w6aa").1.agent_record_identifiers =
      some [newSnacIdentifier "ark:/99166/w6aa"] ∧
    add_snac_ark agentWithSnac "ark:/99166/w6other" =
      (agentWithSnac, "skipped", "SNAC ARK already exists") := by
  constructor
  · have h := (claim_C10_add_frame agentEmptyIds "ark:/99166/w6aa").1 (by decide)
    simpa using h.1
  · exact (claim_C10_add_frame agentWithSnac "ark:/99166/w6other").2.1 (by decide)

/- ### Claim C7: dry-run substitutes the submit step with a no-op -/

/-- Claim C7: in dry-run (`--no-update`) mode, a record whose fetched agent
does not already carry the target ARK gets outcome status `no_update`, the
submit step is not performed (no update POST in the effect trace), and the
outcome still reports what would have happened (`ark_status = added`, message
`SNAC ARK added`). -/
theorem claim_C7_dry_run_no_op
    (fetchO : String → Except String Agent)
    (updateO : String → Agent → Option Agent × String × String)
    (compareO : String → String × String)
    (api_url u a : String) (ag : Agent) (row : Row)
    (h1 : resolveUri api_url row = some u)
    (h2 : row.snac_ark_final = some a) (h3 : a.toList.isEmpty = false)
    (h4 : fetchO u = Except.ok ag) (h5 : has_snac_ark ag a = false) :
    (processAgent fetchO updateO compareO api_url true row).1.status
        = "no_update" ∧
    (processAgent fetchO updateO compareO api_url true row).1.ark_status
        = some "added" ∧
    (processAgent fetchO updateO compareO api_url true row).1.message
        = "SNAC ARK added" ∧
    ∀ v, Effect.updatePost v ∉
        (processAgent fetchO updateO compareO api_url true row).2 := by
  rw [processAgent_dryRun_eq h1 h2 h3 h4 h5]
  refine ⟨rfl, rfl, rfl, ?_⟩
  intro v hv
  simp at hv

/-- Witness for C7 at concrete inputs. -/
theorem claim_C7_dry_run_no_op_witness :
    (processAgent fetchOk updateOk compareNone "https://api" true rowFull).1.status
        = "no_update" ∧
    ∀ v, Effect.updatePost v ∉
        (processAgent fetchOk updateOk compareNone "https://api" true rowFull).2 := by
  have h := claim_C7_dry_run_no_op fetchOk updateOk compareNone "https://api"
    "/agents/people/7" "ark:/99166/w6aa" agentEmptyIds rowFull
    (by decide) rfl (by decide) rfl (by decide)
  exact ⟨h.1, h.2.2.2⟩

/- ### Claim C8: per-record errors are contained -/

lemma processAgent_status_cases
    (fetchO : String → Except String Agent)
    (updateO : String → Agent → Option Agent × String × String)
    (compareO : String → String × String)
    (api_url : String) (no_update : Bool) (row : Row) :
    (processAgent fetchO updateO compareO api_url no_update row).1.status
        = "success" ∨
    (processAgent fetchO updateO compareO api_url no_update row).1.status
        = "no_update" ∨
    (processAgent fetchO updateO compareO api_url no_update row).1.status
        = "error" := by
  cases hres : resolveUri api_url row with
  | none => rw [processAgent_noUri_eq hres]; right; right; rfl
  | some u =>
    cases hark : row.snac_ark_final with
    | none =>
      have h3 : cellMissing row.snac_ark_final = true := by simp [cellMissing, hark]
      rw [processAgent_noArk_eq hres h3]; right; right; rfl
    | some a =>
      cases h3 : a.toList.isEmpty with
      | true =>
        have h3m : cellMissing row.snac_ark_final = true := by
          simp [cellMissing, hark]
          simpa using h3
        rw [processAgent_noArk_eq hres h3m]; right; right; rfl
      | false =>
        cases hf : fetchO u with
        | error e => rw [processAgent_fetchErr_eq hres hark h3 hf]; right; right; rfl
        | ok ag =>
          cases h5 : has_snac_ark ag a with
          | true => rw [processAgent_skip_eq hres hark h3 hf h5]; left; rfl
          | false =>
            cases no_update with
            | true => rw [processAgent_dryRun_eq hres hark h3 hf h5]; right; left; rfl
            | false =>
              rw [processAgent_update_eq hres hark h3 hf h5]
              by_cases h6 : (updateO (if ag.uri.toList.isEmpty then u else ag.uri)
                  (add_snac_ark ag a).1).2.1 = "success"
              · simp only [h6]; left; simp
              · right; right
                simp only [beq_iff_eq, if_neg h6]

/-- Claim C8: every per-record failure (missing key, missing value, fetch
failure after retries, submit failure) is converted into an `error` outcome at
the record-processing boundary; the processor always returns exactly one
outcome whose status is `success`, `no_update` or `error`, and the batch maps
every row to exactly one outcome, so no record failure escapes the batch. -/
theorem claim_C8_errors_contained
    (fetchO : String → Except String Agent)
    (updateO : String → Agent → Option Agent × String × String)
    (compareO : String → String × String)
    (api_url : String) (no_update : Bool) (row : Row) (rows : List Row)
    (u a e : String) (ag : Agent) :
    ((processAgent fetchO updateO compareO api_url no_update row).1.status
        = "success" ∨
     (processAgent fetchO updateO compareO api_url no_update row).1.status
        = "no_update" ∨
     (processAgent fetchO updateO compareO api_url no_update row).1.status
        = "error") ∧
    (resolveUri api_url row = none →
      (processAgent fetchO updateO compareO api_url no_update row).1.status
          = "error" ∧
      (processAgent fetchO updateO compareO api_url no_update row).1.message
          = "No valid agent URI found") ∧
    (resolveUri api_url row = some u → cellMissing row.snac_ark_final = true →
      (processAgent fetchO updateO compareO api_url no_update row).1.status
          = "error" ∧
      (processAgent fetchO updateO compareO api_url no_update row).1.message
          = "No SNAC ARK found") ∧
    (resolveUri api_url row = some u → row.snac_ark_final = some a →
      a.toList.isEmpty = false → fetchO u = Except.error e →
      (processAgent fetchO updateO compareO api_url no_update row).1.status
          = "error") ∧
    (resolveUri api_url row = some u → row.snac_ark_final = some a →
      a.toList.isEmpty = false → fetchO u = Except.ok ag →
      has_snac_ark ag a = false →
      (updateO (if ag.uri.toList.isEmpty then u else ag.uri)
          (add_snac_ark ag a).1).2.1 ≠ "success" →
      (processAgent fetchO updateO compareO api_url false row).1.status
          = "error" ∧
      (processAgent fetchO updateO compareO api_url false row).1.ark_status
          = some "failed") ∧
    processBatch fetchO updateO compareO api_url no_update rows
        = rows.map (processAgent fetchO updateO compareO api_url no_update) ∧
    (processBatch fetchO updateO compareO api_url no_update rows).length
        = rows.length := by
  refine ⟨processAgent_status_cases fetchO updateO compareO api_url no_update row,
    ?_, ?_, ?_, ?_, rfl, by simp [processBatch]⟩
  · intro h1
    rw [processAgent_noUri_eq h1]
    exact ⟨rfl, rfl⟩
  · intro h1 h3
    rw [processAgent_noArk_eq h1 h3]
    exact ⟨rfl, rfl⟩
  · intro h1 h2 h3 h4
    rw [processAgent_fetchErr_eq h1 h2 h3 h4]
  · intro h1 h2 h3 h4 h5 h6
    rw [processAgent_update_eq h1 h2 h3 h4 h5]
    simp only [beq_iff_eq, if_neg h6]
    refine ⟨?_, ?_⟩ <;> first | rfl | trivial

/-- Witness for C8 at concrete inputs: a row with no usable URI yields an
`error` outcome, and a failing submit yields an `error` outcome with the
`failed` action; a two-row batch yields exactly two outcomes. -/
theorem claim_C8_errors_contained_witness :
    (processAgent fetchOk updateFail compareNone "https://api" false
        rowNoUri).1.status = "error" ∧
    (processAgent fetchOk updateFail compareNone "https://api" false
        rowFull).1.status = "error" ∧
    (processBatch fetchOk updateFail compareNone "https://api" false
        [rowNoUri, rowFull]).length = 2 := by
  refine ⟨?_, ?_, ?_⟩
  · exact ((claim_C8_errors_contained fetchOk updateFail compareNone "https://api"
      false rowNoUri [] "u" "a" "e" agentEmptyIds).2.1 (by decide)).1
  · exact ((claim_C8_errors_contained fetchOk updateFail compareNone "https://api"
      false rowFull [] "/agents/people/7" "ark:/99166/w6aa" "e"
      agentEmptyIds).2.2.2.2.1 (by decide) rfl (by decide) rfl (by decide)
      (by decide)).1
  · exact (claim_C8_errors_contained fetchOk updateFail compareNone "https://api"
      false rowFull [rowNoUri, rowFull] "u" "a" "e" agentEmptyIds).2.2.2.2.2.2

/- ### Claim C3: production URL fallback -/

/-- Counterexample to C3: with live mutation enabled and a production
environment whose config has no `prod_api_url` and whose test URL does not
contain the substring `"test"`, `determine_api_url` does not raise — it
returns the test address (the source logs a warning and falls back). -/
theorem claim_C3_prod_url_counterexample :
    determine_api_url
        (AspaceConfig.mk "https://aspace.library.example.edu/api" none)
        "production"
      = (AspaceConfig.mk "https://aspace.library.example.edu/api" none).api_url := by
  decide

/-- Amended C3: environment selection is a pure (total) function of the
configuration: the test environment always gets the configured test URL; for
production an explicit `prod_api_url` wins, else the URL derived by deleting
`"test"` when that substring occurs, else the function falls back to the test
URL without raising (only a warning is logged). -/
theorem claim_C3_env_selection_amended (cfg : AspaceConfig) (u : String) :
    (determine_api_url cfg "test" = cfg.api_url) ∧
    (cfg.prod_api_url = some u → determine_api_url cfg "production" = u) ∧
    (cfg.prod_api_url = none → pyContains cfg.api_url "test" = true →
      determine_api_url cfg "production" = pyReplace cfg.api_url "test" "") ∧
    (cfg.prod_api_url = none → pyContains cfg.api_url "test" = false →
      determine_api_url cfg "production" = cfg.api_url) := by
  refine ⟨by simp [determine_api_url], ?_, ?_, ?_⟩
  · intro h
    simp [determine_api_url, h]
  · intro h hc
    simp [determine_api_url, h, hc]
  · intro h hc
    simp [determine_api_url, h, hc]

/-- Witness for the amended C3 at concrete inputs: deriving the production
URL by deleting `"test"` from a test URL that contains it. -/
theorem claim_C3_env_selection_amended_witness :
    determine_api_url
        (AspaceConfig.mk "https://aspacetest.example.edu/api" none) "production"
      = pyReplace "https://aspacetest.example.edu/api" "test" "" := by
  exact (claim_C3_env_selection_amended
    (AspaceConfig.mk "https://aspacetest.example.edu/api" none) "u").2.2.1
    rfl (by decide)

/- ### Retry lemmas (C4, C5) -/

lemma retryAux_always_err {E A : Type} (q : E → Bool) (f : Nat → RunResult E A)
    (g : Nat → E) (hf : ∀ i, f i = RunResult.err (g i))
    (hq : ∀ i, q (g i) = true) (M : Nat) :
    ∀ (remaining attempt : Nat), 0 < remaining → attempt + remaining = M →
      retryAux q f M remaining attempt =
        (remaining, (List.range' attempt (remaining - 1)).map (fun i => 2 ^ i),
          RetryOutcome.raised (g (M - 1))) := by
  intro remaining
  induction remaining with
  | zero => intro attempt h0 _; omega
  | succ r ih =>
    intro attempt _ hsum
    rw [retryAux, hf attempt]
    simp only [hq attempt, if_true]
    rcases Nat.eq_zero_or_pos r with hr | hr
    · subst hr
      rw [if_pos (by omega : M - 1 ≤ attempt)]
      have hM : attempt = M - 1 := by omega
      simp [hM]
    · rw [if_neg (by omega : ¬ M - 1 ≤ attempt)]
      have ihh := ih (attempt + 1) hr (by omega)
      simp only [ihh, Nat.add_sub_cancel]
      conv_rhs => rw [show r = r - 1 + 1 by omega, List.range'_succ]
      simp [Nat.one_mul]
      omega

/-- Claim C5: a unit of work wrapped with maximum attempt count `M ≥ 1` that
raises a qualifying failure on every invocation is invoked exactly `M` times,
the wait after attempt number `i` (0-based) is `2 ^ i` time units (so the full
wait list is `[2^0, …, 2^(M-2)]`), and the error finally raised is the one
from the last (`M`-th) attempt. -/
theorem claim_C5_retry_bound {E A : Type} (q : E → Bool)
    (f : Nat → RunResult E A) (g : Nat → E) (M : Nat) (hM : 1 ≤ M)
    (hf : ∀ i, f i = RunResult.err (g i)) (hq : ∀ i, q (g i) = true) :
    retry_with_backoff q M f =
      (M, (List.range (M - 1)).map (fun i => 2 ^ i),
        RetryOutcome.raised (g (M - 1))) := by
  rw [retry_with_backoff,
    retryAux_always_err q f g hf hq M M 0 (by omega) (by omega),
    List.range_eq_range']

/-- Witness for C5 at `M = 3` with an always-failing unit of work: three
invocations, waits `[1, 2]`, and the error of attempt number 2 is raised. -/
theorem claim_C5_retry_bound_witness :
    retry_with_backoff (fun _ => true) 3
        (fun i => RunResult.err (A := Unit) (i + 40)) =
      (3, [1, 2], RetryOutcome.raised 42) := by
  have h := claim_C5_retry_bound (fun _ => true)
    (fun i => RunResult.err (A := Unit) (i + 40)) (fun i => i + 40) 3
    (by omega) (fun i => rfl) (fun i => rfl)
  simpa using h

/- ### Claim C4: fetch status handling -/

lemma get_agent_record_err (resp : HttpResponse) (agent_uri : String)
    (h4 : 400 ≤ resp.status_code) (h6 : resp.status_code < 600)
    (h2 : resp.status_code ≠ 200) :
    get_agent_record resp agent_uri =
      RunResult.err (if resp.status_code == 404 then
        "404 Not Found: " ++ agent_uri else "HTTP " ++ toString resp.status_code) := by
  unfold get_agent_record
  have h200 : (resp.status_code == 200) = false := by simpa using h2
  by_cases h404 : resp.status_code = 404
  · simp [h200, h404]
  · have h404b : (resp.status_code == 404) = false := by simpa using h404
    simp [h200, h404b, h4, h6]

/-- Counterexample to C4: a fetch whose server answers 404 on every attempt
is not non-retryable — the wrapped `get_agent_record` invokes the unit of
work 3 times (with back-off waits 1 and 2), because the decorator's
`allowed_exceptions` tuple ends in `Exception`, which also catches the 404
and 401/403 `HTTPError`s.  The claimed behaviour (fail immediately, exactly
one attempt) is false. -/
theorem claim_C4_notfound_retried_counterexample :
    fetchAgentRetried (fun _ => HttpResponse.mk 404 agentEmptyIds)
        "/agents/people/7" =
      (3, [1, 2], RetryOutcome.raised "404 Not Found: /agents/people/7") ∧
    fetchAgentRetried (fun _ => HttpResponse.mk 403 agentEmptyIds)
        "/agents/people/7" =
      (3, [1, 2], RetryOutcome.raised "HTTP 403") := by
  constructor <;> decide

/-- Amended C4: a 200 response returns the parsed record (one attempt, no
retry); 404 raises `404 Not Found`, 401/403 and every other failing (4xx/5xx)
status raise an HTTP error — and each of these raised errors qualifies for
retry (the `allowed_exceptions` include `Exception`), so a persistently
failing fetch is attempted exactly 3 times and the last attempt's error is
raised. -/
theorem claim_C4_fetch_status_handling_amended
    (server : Nat → HttpResponse) (body : Agent) (s : Nat)
    (agent_uri : String) :
    (get_agent_record (HttpResponse.mk 200 body) agent_uri
        = RunResult.ok (some body)) ∧
    (get_agent_record (HttpResponse.mk 404 body) agent_uri
        = RunResult.err ("404 Not Found: " ++ agent_uri)) ∧
    (get_agent_record (HttpResponse.mk 401 body) agent_uri
        = RunResult.err "HTTP 401") ∧
    (get_agent_record (HttpResponse.mk 403 body) agent_uri
        = RunResult.err "HTTP 403") ∧
    (400 ≤ s → s < 600 → s ≠ 200 → s ≠ 404 →
      get_agent_record (HttpResponse.mk s body) agent_uri
        = RunResult.err ("HTTP " ++ toString s)) ∧
    ((∀ i, 400 ≤ (server i).status_code ∧ (server i).status_code < 600 ∧
        (server i).status_code ≠ 200) →
      (fetchAgentRetried server agent_uri).1 = 3 ∧
      (fetchAgentRetried server agent_uri).2.1 = [1, 2]) ∧
    ((server 0).status_code = 200 →
      fetchAgentRetried server agent_uri
        = (1, [], RetryOutcome.value (some (server 0).body))) := by
  have h401 : get_agent_record (HttpResponse.mk 401 body) agent_uri
      = RunResult.err ("HTTP " ++ toString 401) := rfl
  have h403 : get_agent_record (HttpResponse.mk 403 body) agent_uri
      = RunResult.err ("HTTP " ++ toString 403) := rfl
  refine ⟨by rfl, by rfl, by rw [h401]; rfl, by rw [h403]; rfl, ?_, ?_, ?_⟩
  · intro hs4 hs6 hs200 hs404
    exact get_agent_record_err (HttpResponse.mk s body) agent_uri hs4 hs6 hs200
      |>.trans (by simp [hs404])
  · intro hsrv
    have herr : ∀ i, (fun attempt =>
        get_agent_record (server attempt) agent_uri) i =
        RunResult.err ((fun attempt =>
          if (server attempt).status_code == 404 then
            "404 Not Found: " ++ agent_uri
          else "HTTP " ++ toString (server attempt).status_code) i) := by
      intro i
      exact get_agent_record_err (server i) agent_uri (hsrv i).1 (hsrv i).2.1
        (hsrv i).2.2
    have h := retryAux_always_err fetchQualifies
      (fun attempt => get_agent_record (server attempt) agent_uri)
      (fun attempt =>
        if (server attempt).status_code == 404 then
          "404 Not Found: " ++ agent_uri
        else "HTTP " ++ toString (server attempt).status_code)
      herr (fun i => rfl) 3 3 0 (by omega) (by omega)
    rw [fetchAgentRetried, retry_with_backoff, h]
    constructor
    · rfl
    · norm_num [List.range']
  · intro h200
    rw [fetchAgentRetried, retry_with_backoff, retryAux]
    have : get_agent_record (server 0) agent_uri
        = RunResult.ok (some (server 0).body) := by
      unfold get_agent_record
      simp [h200]
    rw [this]

/-- Witness for the amended C4: a server that persistently answers 500 is
attempted 3 times, and a server that answers 200 returns the record at once. -/
theorem claim_C4_fetch_status_handling_amended_witness :
    (fetchAgentRetried (fun _ => HttpResponse.mk 500 agentEmptyIds) "/x").1 = 3 ∧
    fetchAgentRetried (fun _ => HttpResponse.mk 200 agentEmptyIds) "/x"
      = (1, [], RetryOutcome.value (some agentEmptyIds)) := by
  constructor
  · exact ((claim_C4_fetch_status_handling_amended
      (fun _ => HttpResponse.mk 500 agentEmptyIds) agentEmptyIds
      500 "/x").2.2.2.2.2.1 (fun i => by decide)).1
  · exact (claim_C4_fetch_status_handling_amended
      (fun _ => HttpResponse.mk 200 agentEmptyIds) agentEmptyIds
      200 "/x").2.2.2.2.2.2 rfl

/- ### Claim C1: resume semantics -/

lemma sliceFrom_eq_drop (df : List Row) (s : Nat) :
    sliceFrom df s = df.drop s := by
  rcases Nat.eq_zero_or_pos s with h | h
  · subst h; simp [sliceFrom]
  · by_cases h2 : s < df.length
    · simp [sliceFrom, h, h2]
    · have hle : df.length ≤ s := by omega
      simp [sliceFrom, h, h2, List.drop_eq_nil_of_le hle]

/-- Counterexample to C1: resuming from a checkpoint whose `processed_uris`
set contains `/agents/people/7`, with that record reappearing at offset 1 of
the input (past the resumption point), the record is NOT skipped: the run
produces an outcome for it and performs a fetch, although its identity key is
in the seeded processed set.  The processed set is loaded (`seededUris`) but
never consulted by `process_agent`/`process_batch` before processing a row. -/
theorem claim_C1_resume_skip_counterexample :
    "/agents/people/7" ∈ seededUris true (some cpSeen) ∧
    startIndexOf true (some cpSeen) = 1 ∧
    (runOutcomes fetchOk updateOk compareNone "https://api" true dfTwo
        (startIndexOf true (some cpSeen))).map (fun p => p.1.agent_uri)
      = [some "/agents/people/7"] ∧
    (runOutcomes fetchOk updateOk compareNone "https://api" true dfTwo
        (startIndexOf true (some cpSeen))).map (fun p => p.2)
      = [[Effect.fetch "/agents/people/7",
          Effect.cacheWrite "_agents_people_7.json"]] := by
  refine ⟨by decide, by decide, by decide, by decide⟩

/-- Amended C1: resuming re-derives the starting offset as
`last_processed_index + 1` and seeds the checkpoint's `processed_uris` into
the in-memory set, but that set is only carried forward into later checkpoint
writes — records are never skipped by identity key.  Resume correctness holds
by offset partitioning alone: for an unchanged input, the outcomes of a first
run interrupted after the first `k` records followed by the outcomes of the
resumed run equal the outcomes of one uninterrupted run. -/
theorem claim_C1_resume_amended
    (fetchO : String → Except String Agent)
    (updateO : String → Agent → Option Agent × String × String)
    (compareO : String → String × String)
    (api_url : String) (no_update : Bool)
    (df : List Row) (cp : Checkpoint) (k : Nat)
    (hk : cp.last_processed_index + 1 = k) :
    startIndexOf true (some cp) = k ∧
    (df.take k).map (processAgent fetchO updateO compareO api_url no_update) ++
        runOutcomes fetchO updateO compareO api_url no_update df k
      = runOutcomes fetchO updateO compareO api_url no_update df 0 := by
  constructor
  · simp [startIndexOf, hk]
  · rw [runOutcomes, runOutcomes, sliceFrom_eq_drop, sliceFrom_eq_drop,
      ← List.map_append, List.take_append_drop, List.drop_zero]

/-- Witness for the amended C1 at concrete inputs: resuming `dfTwo` from the
checkpoint (interrupted after 1 record) reproduces the uninterrupted run. -/
theorem claim_C1_resume_amended_witness :
    startIndexOf true (some cpSeen) = 1 ∧
    (dfTwo.take 1).map (processAgent fetchOk updateOk compareNone
        "https://api" true) ++
      runOutcomes fetchOk updateOk compareNone "https://api" true dfTwo 1
      = runOutcomes fetchOk updateOk compareNone "https://api" true dfTwo 0 :=
  claim_C1_resume_amended fetchOk updateOk compareNone "https://api" true
    dfTwo cpSeen 1 rfl

/- ### Claim C2: checkpoint persistence is not atomic -/

/-- Counterexample to C2: `save_checkpoint` performs no rename (no
temp-then-replace), and simulating a crash 5 characters into its first write
leaves the checkpoint file holding neither the prior valid checkpoint nor the
complete new one — a half-written state. -/
theorem claim_C2_checkpoint_atomicity_counterexample :
    (saveCheckpointOps "production" 42 "t1" none).any isRename = false ∧
    crashState fsProd (saveCheckpointOps "production" 42 "t1" none) 0 5
        (checkpointPath "production") ≠ some (checkpointJson 9 "t0" none) ∧
    crashState fsProd (saveCheckpointOps "production" 42 "t1" none) 0 5
        (checkpointPath "production") ≠ some (checkpointJson 42 "t1" none) := by
  refine ⟨by decide, by decide, by decide⟩

/-- Amended C2: `save_checkpoint` persists by writing the JSON directly to
the final checkpoint path (then the human-readable twin), with no temporary
file and no rename; consequently a crash `j` characters into the first write
leaves the checkpoint file holding exactly the first `j` characters of the
new content — the prior checkpoint is truncated away, not preserved. -/
theorem claim_C2_checkpoint_direct_write_amended
    (environment : String) (last_processed_index : Nat) (ts : String)
    (processed_uris : Option (List String)) :
    saveCheckpointOps environment last_processed_index ts processed_uris =
      [FileOp.write (checkpointPath environment)
          (checkpointJson last_processed_index ts processed_uris),
       FileOp.write (checkpointTxtPath environment)
          (checkpointTxt last_processed_index ts)] ∧
    (saveCheckpointOps environment last_processed_index ts
        processed_uris).any isRename = false ∧
    (∀ (fs : FileSys) (j : Nat),
      crashState fs
          (saveCheckpointOps environment last_processed_index ts processed_uris)
          0 j (checkpointPath environment)
        = some (String.mk
            ((checkpointJson last_processed_index ts processed_uris).toList.take j))) := by
  refine ⟨rfl, by simp [saveCheckpointOps, isRename], ?_⟩
  intro fs j
  simp [crashState, saveCheckpointOps, applyOps]

/- ### Claim C9: batch barrier -/

lemma batchRows_offset {N B b x : Nat} (hB : 0 < B)
    (hx : x ∈ batchRows N B b) : x / B = b := by
  rw [batchRows, List.mem_iff_getElem] at hx
  obtain ⟨i, hi, hget⟩ := hx
  have hiB : i < B := by
    have := hi
    simp [List.length_take, lt_min_iff] at this
    exact this.1
  rw [List.getElem_take, List.getElem_drop, List.getElem_range] at hget
  subst hget
  rw [Nat.mul_comm b B, Nat.mul_add_div hB, Nat.div_eq_of_lt hiB, Nat.add_zero]

lemma sched_event_offset {N B b : Nat} {sched : List Nat → List BEvent}
    (hB : 0 < B)
    (hs : (sched (batchRows N B b)).Perm
      ((batchRows N B b).map recordEvents).flatten)
    {e : BEvent} (he : e ∈ sched (batchRows N B b)) : offsetOf e / B = b := by
  have he2 := hs.mem_iff.mp he
  rw [List.mem_flatten] at he2
  obtain ⟨l, hl, hel⟩ := he2
  rw [List.mem_map] at hl
  obtain ⟨o, ho, rfl⟩ := hl
  have hoe : offsetOf e = o := by
    rw [recordEvents] at hel
    simp at hel
    rcases hel with h | h <;> subst h <;> rfl
  rw [hoe]
  exact batchRows_offset hB ho

lemma runTrace_pairwise {N B : Nat} (hB : 0 < B)
    {sched : List Nat → List BEvent}
    (hs : ∀ b, b < numBatches N B → (sched (batchRows N B b)).Perm
      ((batchRows N B b).map recordEvents).flatten) :
    (runTrace N B sched).Pairwise
      (fun e1 e2 => offsetOf e1 / B ≤ offsetOf e2 / B) := by
  rw [runTrace, List.pairwise_flatten]
  constructor
  · intro l hl
    rw [List.mem_map] at hl
    obtain ⟨b, hb, rfl⟩ := hl
    rw [List.mem_range] at hb
    rw [List.pairwise_iff_getElem]
    intro i j hi hj _
    have h1 := sched_event_offset hB (hs b hb) (List.getElem_mem hi)
    have h2 := sched_event_offset hB (hs b hb) (List.getElem_mem hj)
    rw [h1, h2]
  · rw [List.pairwise_iff_getElem]
    intro i j hi hj hij
    simp only [List.length_map, List.length_range] at hi hj
    intro x hx y hy
    rw [List.getElem_map, List.getElem_range] at hx hy
    have h1 := sched_event_offset hB (hs i hi) hx
    have h2 := sched_event_offset hB (hs j hj) hy
    rw [h1, h2]
    omega

/-- Claim C9: batch barrier.  In any admissible run trace (each batch's
events in an arbitrary completion order, batches joined in order — the join
performed by `process_batch` draining its thread pool before returning), an
event of a later batch never occurs before an event of an earlier batch: if
the record at trace position `p` belongs to a strictly earlier batch than the
record at position `q`, then `p < q`.  In particular no record of batch `i+1`
starts before every record of batch `i` has finished.  Moreover the absolute
index checkpointed after batch `b` bounds exactly the records of batches
`≤ b`: every offset `o ≤ checkpointIndex N B b` lies in a batch `≤ b`. -/
theorem claim_C9_batch_barrier (N B : Nat) (hB : 0 < B)
    (sched : List Nat → List BEvent)
    (hs : ∀ b, b < numBatches N B → (sched (batchRows N B b)).Perm
      ((batchRows N B b).map recordEvents).flatten) :
    (∀ (p q : Nat) (hp : p < (runTrace N B sched).length)
        (hq : q < (runTrace N B sched).length),
      offsetOf ((runTrace N B sched)[p]) / B
          < offsetOf ((runTrace N B sched)[q]) / B → p < q) ∧
    (∀ b o, o ≤ checkpointIndex N B b → o / B ≤ b) := by
  constructor
  · intro p q hp hq hlt
    by_contra hpq
    push_neg at hpq
    have hpair := runTrace_pairwise hB hs
    rw [List.pairwise_iff_getElem] at hpair
    rcases Nat.lt_or_ge q p with h | h
    · have := hpair q p hq hp h
      omega
    · have : p = q := by omega
      subst this
      omega
  · intro b o ho
    have hlen : (batchRows N B b).length ≤ B := by
      rw [batchRows, List.length_take]
      exact Nat.min_le_left _ _
    have hoB : o < (b + 1) * B := by
      rw [checkpointIndex] at ho
      have hmul : (b + 1) * B = b * B + B := by ring
      omega
    have : o / B < b + 1 := by
      rw [Nat.div_lt_iff_lt_mul hB]
      exact hoB
    omega

/-- Witness for C9 with `N = 4`, `B = 2` and the in-order schedule: the event
at trace position 0 (batch 0) precedes the event at position 4 (batch 1), and
offset 2 is within the batch checkpointed at index 3 (batch 1). -/
theorem claim_C9_batch_barrier_witness : (0 : Nat) < 4 ∧ (2 : Nat) / 2 ≤ 1 := by
  have h := claim_C9_batch_barrier 4 2 (by decide) schedSeq
    (fun b _ => List.Perm.refl _)
  exact ⟨h.1 0 4 (by decide) (by decide) (by decide), h.2 1 2 (by decide)⟩
